import Mathlib

/-!
# Verification of the Anubis web frontend and evaluation pipeline

Shallow embedding of the parts of the `w3joe/anubis` repository that the
claims concern:

* `apps/web/lib/consts.ts` — the model / metric identifier universes.
  (The repository carries two versions of `consts.ts`; they agree on the
  metric universe, and every concrete identifier used below belongs to
  both model universes.)
* `apps/web/lib/api.ts` — the zod schema `evaluateRequest`.
* `apps/web/app/results/page.tsx` — `generateProsAndCons` and
  `handleStreamEvent` over the results-page state.
* `apps/web/components/ordered-checkbox-group.tsx` — `handleToggle`.
* the backend Weight Calculator, which is not among the sources and is
  modelled from the specification.
-/

namespace Anubis

/-! ## `lib/consts.ts` -/

/-- `MODELS.map(m => m.value)` from `lib/consts.ts`. -/
def modelValues : List String :=
  ["gemini-2.5-pro", "gemini-2.5-flash", "gemini-2.5-flash-lite", "gemma-3-1b-it"]

/-- `METRICS.map(m => m.value)` from `lib/consts.ts`. -/
def metricValues : List String :=
  ["time_complexity", "readability", "consistency", "code_documentation",
   "external_dependencies"]

/-! ## `lib/api.ts` — the zod schema `evaluateRequest`

`evaluateRequest = z.object({ prompt: z.string().min(5, msg),
models: z.array(z.enum(modelValues)), metrics: z.array(z.enum(metricValues)) })`.

A raw request may omit the `metrics` key (`Option`); zod rejects a missing
key for a field that is not declared `.optional()`. -/

/-- A request value as handed to `evaluateRequest.safeParse`. -/
structure RawRequest where
  prompt : String
  models : List String
  metrics : Option (List String)

/-- Issues raised for the `prompt` field: `z.string().min(5, ...)`. -/
def promptIssues (p : String) : List String :=
  if p.length < 5 then ["The prompt needs to be at least 5 characters long"] else []

/-- Issues raised for the `models` field: `z.array(z.enum(modelValues))`
rejects exactly the elements outside the enum. -/
def modelsIssues (ms : List String) : List String :=
  ms.filterMap fun m =>
    if m ∈ modelValues then none else some ("Invalid enum value: " ++ m)

/-- Issues raised for the `metrics` field: the key is required (the schema
has no `.optional()`), and each element must be in the metric enum. -/
def metricsIssues : Option (List String) → List String
  | none => ["Required"]
  | some ms =>
      ms.filterMap fun m =>
        if m ∈ metricValues then none else some ("Invalid enum value: " ++ m)

/-- `evaluateRequest.safeParse(r).success`. -/
def safeParseSuccess (r : RawRequest) : Bool :=
  (promptIssues r.prompt).isEmpty && (modelsIssues r.models).isEmpty &&
    (metricsIssues r.metrics).isEmpty

/-! ## `app/results/page.tsx` — `generateProsAndCons`

Scores are JavaScript numbers; they are embedded as rationals, over which
the comparisons `>= 8`, `>= 6.5`, `>= 5` are exact. -/

/-- One analyzer result: `{ score, notes }`. -/
structure MetricScore where
  score : ℚ
  notes : String
deriving DecidableEq

/-- The template line pushed for one metric entry:
`` `${frame} ${metricName} (${score}/10): ${notes}` `` with
`metricName = key.replace(/_/g, " ")`. -/
def metricLine (frame : String) (key : String) (v : MetricScore) : String :=
  frame ++ " " ++ key.replace "_" " " ++ " (" ++ toString v.score ++ "/10): " ++ v.notes

/-- `generateProsAndCons`: iterates the metric entries in order, pushing each
onto `pros` or `cons` according to the score bands of the if/else chain. -/
def generateProsAndCons : List (String × MetricScore) → List String × List String
  | [] => ([], [])
  | (key, v) :: rest =>
      let (pros, cons) := generateProsAndCons rest
      if v.score ≥ 8 then (metricLine "Excellent" key v :: pros, cons)
      else if v.score ≥ 6.5 then (metricLine "Good" key v :: pros, cons)
      else if v.score ≥ 5 then (pros, metricLine "Moderate" key v :: cons)
      else (pros, metricLine "Poor" key v :: cons)

/-! ## `app/results/page.tsx` — state and `handleStreamEvent` -/

/-- `ModelStatus = "pending" | "processing" | "complete" | "error"`. -/
inductive ModelStatus
  | pending
  | processing
  | complete
  | error
deriving DecidableEq

/-- `ModelResult` from `lib/types.ts`. -/
structure ModelResult where
  model : String
  status : ModelStatus
  code : String
  executionTime : Option ℚ := none
  overallScore : Option ℚ := none
  metrics : Option (List (String × MetricScore)) := none
  pros : Option (List String) := none
  cons : Option (List String) := none
  error : Option String := none
deriving DecidableEq

/-- `Recommendation` from `lib/types.ts`. -/
structure Recommendation where
  bestModel : String
  bestScore : ℚ
  code : String
  potentialIssues : String
deriving DecidableEq

/-- `Warning` from `lib/types.ts` (`type` is `"model" | "code_quality"`). -/
structure Warning where
  id : String
  type : String
  message : String
  model : Option String
deriving DecidableEq

/-- `SummaryEvent["data"]` from `lib/types.ts`. -/
structure SummaryData where
  total_models_tested : Nat
  successful_evaluations : Nat
  failed_evaluations : Nat
  best_model : String
  best_score : ℚ
  best_generated_code : String
  potential_issues : String
deriving DecidableEq

/-- `StreamEvent` from `lib/types.ts` (the `ranking` payload of `summary`
and the `notes` payload of `evaluation_result` are not read by
`handleStreamEvent` and are carried verbatim). -/
inductive StreamEvent
  | generation_start (model : String)
  | code_chunk (model : String) (chunk : String)
  | generation_complete (model : String) (success : Bool) (execution_time_ms : ℚ)
  | evaluation_result (model : String) (overall_score : ℚ)
      (metrics : List (String × MetricScore))
  | summary (data : SummaryData) (ranking : List (Nat × String × ℚ))
  | complete
  | error (message : String) (model : Option String)

/-- The React state of `ResultsPage` that `handleStreamEvent` updates:
`results`, `recommendation`, `warnings`, `isComplete`, `error`.
`results` is the object `Partial<Record<Model, ModelResult>>`, embedded as a
function returning `none` for absent keys. -/
structure ResultsState where
  results : String → Option ModelResult
  recommendation : Option Recommendation := none
  warnings : List Warning := []
  isComplete : Bool := false
  error : Option String := none

/-- `handleStreamEvent`. `now` stands for the value of `Date.now()` used in
the warning id for model-tagged `error` events; it is otherwise unread.
Every `setResults` branch first looks up `prev[event.model]` and returns
`prev` unchanged when the entry is absent. -/
def handleStreamEvent (now : Nat) (e : StreamEvent) (st : ResultsState) : ResultsState :=
  match e with
  | .generation_start model =>
      match st.results model with
      | none => st
      | some cur =>
          { st with results := fun m =>
              if m = model then some { cur with status := .processing }
              else st.results m }
  | .code_chunk model chunk =>
      match st.results model with
      | none => st
      | some cur =>
          { st with results := fun m =>
              if m = model then some { cur with code := cur.code ++ chunk }
              else st.results m }
  | .generation_complete model success t =>
      match st.results model with
      | none => st
      | some cur =>
          { st with results := fun m =>
              if m = model then
                some { cur with
                        status := if success then .complete else .error,
                        executionTime := some t,
                        error := if success then none else some "Generation failed" }
              else st.results m }
  | .evaluation_result model score ms =>
      match st.results model with
      | none => st
      | some cur =>
          let pc := generateProsAndCons ms
          { st with results := fun m =>
              if m = model then
                some { cur with
                        overallScore := some score,
                        metrics := some ms,
                        pros := some pc.1,
                        cons := some pc.2 }
              else st.results m }
  | .summary data _ranking =>
      let rec' : Recommendation :=
        { bestModel := data.best_model,
          bestScore := data.best_score,
          code := data.best_generated_code,
          potentialIssues := data.potential_issues }
      { st with recommendation := some rec' }
  | .error message model? =>
      match model? with
      | some errorModel =>
          let st1 :=
            match st.results errorModel with
            | none => st
            | some cur =>
                { st with results := fun m =>
                    if m = errorModel then
                      some { cur with status := .error, error := some message }
                    else st.results m }
          { st1 with warnings := st1.warnings ++
              [{ id := "error-" ++ errorModel ++ "-" ++ toString now,
                 type := "model", message := message, model := some errorModel }] }
      | none => { st with error := some message }
  | .complete => { st with isComplete := true }

/-! ## `components/ordered-checkbox-group.tsx` — `handleToggle` -/

/-- The new list of selected values produced by `handleToggle(value)`:
remove via `filter((v) => v !== value)` when present, else append at the
end. -/
def handleToggle (selectedValues : List String) (value : String) : List String :=
  if value ∈ selectedValues then
    selectedValues.filter fun v => v != value
  else
    selectedValues ++ [value]

/-! ## The backend Weight Calculator -/

/-- Modelled from the spec: the Weight Calculator (`computeWeights`) lives in
the Flask backend, whose source is not in the repository snapshot (only its
documentation and a shell test script are). Per §4.1, for a non-empty
priority list the metric at 0-based position `i` receives unnormalized
weight `decayRate^i`, and every weight is then divided by the sum of all of
them. -/
def computeWeights (priority : List String) (decayRate : ℚ) : List (String × ℚ) :=
  let raw := (List.range priority.length).map fun i => decayRate ^ i
  let total := raw.sum
  priority.zip (raw.map fun w => w / total)

/-! ## Helper lemmas -/

theorem ite_none_eq_none_iff {c : Prop} [Decidable c] (s : String) :
    (if c then none else some s) = (none : Option String) ↔ c := by
  split <;> simp_all

theorem modelsIssues_eq_nil_iff (ms : List String) :
    modelsIssues ms = [] ↔ ∀ x ∈ ms, x ∈ modelValues := by
  simp [modelsIssues, List.filterMap_eq_nil_iff, ite_none_eq_none_iff]

theorem metricsIssues_some_eq_nil_iff (ms : List String) :
    metricsIssues (some ms) = [] ↔ ∀ x ∈ ms, x ∈ metricValues := by
  simp [metricsIssues, List.filterMap_eq_nil_iff, ite_none_eq_none_iff]

theorem safeParseSuccess_iff (r : RawRequest) :
    safeParseSuccess r = true ↔
      promptIssues r.prompt = [] ∧ modelsIssues r.models = [] ∧
        metricsIssues r.metrics = [] := by
  simp [safeParseSuccess, Bool.and_eq_true, List.isEmpty_iff, and_assoc]

/-! ## Claim theorems: the `evaluateRequest` boundary -/

/-- C2 (counterexample): `evaluateRequest.safeParse` accepts a request whose
`models` array is empty, and one whose `models` array repeats the same model
identifier, so it does not enforce "at least one element and no
duplicates". -/
theorem safeParse_accepts_empty_and_duplicate_models :
    safeParseSuccess ⟨"hello", [], some []⟩ = true ∧
    safeParseSuccess ⟨"hello", ["gemini-2.5-pro", "gemini-2.5-pro"], some []⟩ = true := by
  decide

/-- C2 (amended): for every request with a valid prompt and valid metrics,
`evaluateRequest.safeParse` accepts it if and only if every element of its
`models` array is a known model identifier; in particular the empty array
and arrays with duplicates are accepted. -/
theorem safeParse_models_membership_only (req : RawRequest)
    (hp : 5 ≤ req.prompt.length)
    (hmet : ∃ ms, req.metrics = some ms ∧ ∀ x ∈ ms, x ∈ metricValues) :
    safeParseSuccess req = true ↔ ∀ x ∈ req.models, x ∈ modelValues := by
  obtain ⟨ms, hms, hall⟩ := hmet
  rw [safeParseSuccess_iff, hms]
  have h1 : promptIssues req.prompt = [] := by
    simp [promptIssues, Nat.not_lt.mpr hp]
  have h2 : metricsIssues (some ms) = [] := (metricsIssues_some_eq_nil_iff ms).mpr hall
  simp [h1, h2, modelsIssues_eq_nil_iff]

/-- C2 (witness): the amended statement applied to a concrete valid
request. -/
theorem safeParse_models_membership_only_witness :
    (5 ≤ ("write merge sort" : String).length) ∧
    (∃ ms, (some ["readability"] : Option (List String)) = some ms ∧
       ∀ x ∈ ms, x ∈ metricValues) ∧
    (safeParseSuccess ⟨"write merge sort", ["gemini-2.5-pro"], some ["readability"]⟩ = true ↔
      ∀ x ∈ ["gemini-2.5-pro"], x ∈ modelValues) :=
  ⟨by decide, ⟨["readability"], rfl, by decide⟩,
    safeParse_models_membership_only
      ⟨"write merge sort", ["gemini-2.5-pro"], some ["readability"]⟩
      (by decide) ⟨["readability"], rfl, by decide⟩⟩

/-- C3: with valid `models` and `metrics`, `evaluateRequest.safeParse`
succeeds exactly when the prompt has length at least 5, and a shorter
prompt raises the prompt-field error message. -/
theorem safeParse_prompt_min_length (req : RawRequest)
    (hm : ∀ x ∈ req.models, x ∈ modelValues)
    (hmet : ∃ ms, req.metrics = some ms ∧ ∀ x ∈ ms, x ∈ metricValues) :
    (safeParseSuccess req = true ↔ 5 ≤ req.prompt.length) ∧
    (req.prompt.length < 5 →
      promptIssues req.prompt = ["The prompt needs to be at least 5 characters long"]) := by
  obtain ⟨ms, hms, hall⟩ := hmet
  constructor
  · rw [safeParseSuccess_iff, hms]
    have h2 : modelsIssues req.models = [] := (modelsIssues_eq_nil_iff _).mpr hm
    have h3 : metricsIssues (some ms) = [] := (metricsIssues_some_eq_nil_iff ms).mpr hall
    simp [h2, h3, promptIssues, Nat.not_lt]
  · intro hlt
    simp [promptIssues, hlt]

/-- C3 (witness): the prompt-length criterion at a concrete request. -/
theorem safeParse_prompt_min_length_witness :
    (∀ x ∈ ["gemini-2.5-flash"], x ∈ modelValues) ∧
    (∃ ms, (some [] : Option (List String)) = some ms ∧ ∀ x ∈ ms, x ∈ metricValues) ∧
    ((safeParseSuccess ⟨"hi", ["gemini-2.5-flash"], some []⟩ = true ↔
        5 ≤ ("hi" : String).length) ∧
      (("hi" : String).length < 5 →
        promptIssues "hi" = ["The prompt needs to be at least 5 characters long"])) :=
  ⟨by decide, ⟨[], rfl, by decide⟩,
    safeParse_prompt_min_length ⟨"hi", ["gemini-2.5-flash"], some []⟩
      (by decide) ⟨[], rfl, by decide⟩⟩

/-- C4 (counterexample): a request with a valid prompt and a valid, known
model but no `metrics` key at all is rejected by `evaluateRequest.safeParse`
— the schema declares `metrics: z.array(...)` without `.optional()`. -/
theorem safeParse_rejects_missing_metrics :
    safeParseSuccess ⟨"write merge sort", ["gemini-2.5-pro"], none⟩ = false := by
  decide

/-- C4 (amended): the `metrics` field is required, not optional: a request
missing it is rejected, while the same request with any list of known
metric identifiers supplied is accepted. -/
theorem safeParse_metrics_required (prompt : String) (models : List String)
    (hp : 5 ≤ prompt.length) (hm : ∀ x ∈ models, x ∈ modelValues)
    (ms : List String) (hms : ∀ x ∈ ms, x ∈ metricValues) :
    safeParseSuccess ⟨prompt, models, none⟩ = false ∧
    safeParseSuccess ⟨prompt, models, some ms⟩ = true := by
  constructor
  · simp [safeParseSuccess, metricsIssues]
  · rw [safeParseSuccess_iff]
    refine ⟨by simp [promptIssues, Nat.not_lt.mpr hp],
      (modelsIssues_eq_nil_iff _).mpr hm,
      (metricsIssues_some_eq_nil_iff ms).mpr hms⟩

/-- C4 (witness): required-metrics behavior at a concrete request. -/
theorem safeParse_metrics_required_witness :
    (5 ≤ ("sort an array" : String).length) ∧
    (∀ x ∈ ["gemma-3-1b-it"], x ∈ modelValues) ∧
    (∀ x ∈ ["consistency"], x ∈ metricValues) ∧
    (safeParseSuccess ⟨"sort an array", ["gemma-3-1b-it"], none⟩ = false ∧
      safeParseSuccess ⟨"sort an array", ["gemma-3-1b-it"], some ["consistency"]⟩ = true) :=
  ⟨by decide, by decide, by decide,
    safeParse_metrics_required "sort an array" ["gemma-3-1b-it"] (by decide)
      (by decide) ["consistency"] (by decide)⟩

/-! ## Claim theorems: `generateProsAndCons` -/

theorem generateProsAndCons_cons (key : String) (v : MetricScore)
    (tl : List (String × MetricScore)) :
    generateProsAndCons ((key, v) :: tl) =
      if v.score ≥ 8 then
        (metricLine "Excellent" key v :: (generateProsAndCons tl).1,
         (generateProsAndCons tl).2)
      else if v.score ≥ 6.5 then
        (metricLine "Good" key v :: (generateProsAndCons tl).1,
         (generateProsAndCons tl).2)
      else if v.score ≥ 5 then
        ((generateProsAndCons tl).1,
         metricLine "Moderate" key v :: (generateProsAndCons tl).2)
      else
        ((generateProsAndCons tl).1,
         metricLine "Poor" key v :: (generateProsAndCons tl).2) := rfl

theorem generateProsAndCons_length (ms : List (String × MetricScore)) :
    (generateProsAndCons ms).1.length + (generateProsAndCons ms).2.length
      = ms.length := by
  induction ms with
  | nil => rfl
  | cons hd tl ih =>
    obtain ⟨key, v⟩ := hd
    rw [generateProsAndCons_cons]
    split_ifs <;> simp <;> omega

theorem generateProsAndCons_mem (ms : List (String × MetricScore))
    (kv : String × MetricScore) (h : kv ∈ ms) :
    ((8 : ℚ) ≤ kv.2.score →
        metricLine "Excellent" kv.1 kv.2 ∈ (generateProsAndCons ms).1) ∧
    ((6.5 : ℚ) ≤ kv.2.score → kv.2.score < 8 →
        metricLine "Good" kv.1 kv.2 ∈ (generateProsAndCons ms).1) ∧
    ((5 : ℚ) ≤ kv.2.score → kv.2.score < 6.5 →
        metricLine "Moderate" kv.1 kv.2 ∈ (generateProsAndCons ms).2) ∧
    (kv.2.score < 5 →
        metricLine "Poor" kv.1 kv.2 ∈ (generateProsAndCons ms).2) := by
  induction ms with
  | nil => cases h
  | cons hd tl ih =>
    obtain ⟨key, v⟩ := hd
    rw [generateProsAndCons_cons]
    rcases List.mem_cons.mp h with heq | hmem
    · subst heq
      refine ⟨fun h1 => ?_, fun h1 h2 => ?_, fun h1 h2 => ?_, fun h1 => ?_⟩ <;>
        split_ifs <;>
        first
          | exact List.mem_cons_self _ _
          | (exfalso; linarith)
    · obtain ⟨i1, i2, i3, i4⟩ := ih hmem
      refine ⟨fun h1 => ?_, fun h1 h2 => ?_, fun h1 h2 => ?_, fun h1 => ?_⟩ <;>
        split_ifs <;>
        first
          | exact i1 h1
          | exact List.mem_cons_of_mem _ (i1 h1)
          | exact i2 h1 h2
          | exact List.mem_cons_of_mem _ (i2 h1 h2)
          | exact i3 h1 h2
          | exact List.mem_cons_of_mem _ (i3 h1 h2)
          | exact i4 h1
          | exact List.mem_cons_of_mem _ (i4 h1)

/-- C5: every metric entry lands in exactly one of `pros`/`cons`
(`|pros| + |cons| = |entries|`), classified with bands inclusive at their
lower bound: score ≥ 8 gives an "Excellent" pro, score in [6.5, 8) a
"Good" pro, score in [5, 6.5) a "Moderate" con, and score < 5 a "Poor"
con. -/
theorem generateProsAndCons_bands (ms : List (String × MetricScore)) :
    ((generateProsAndCons ms).1.length + (generateProsAndCons ms).2.length
        = ms.length) ∧
    ∀ kv ∈ ms,
      ((8 : ℚ) ≤ kv.2.score →
          metricLine "Excellent" kv.1 kv.2 ∈ (generateProsAndCons ms).1) ∧
      ((6.5 : ℚ) ≤ kv.2.score → kv.2.score < 8 →
          metricLine "Good" kv.1 kv.2 ∈ (generateProsAndCons ms).1) ∧
      ((5 : ℚ) ≤ kv.2.score → kv.2.score < 6.5 →
          metricLine "Moderate" kv.1 kv.2 ∈ (generateProsAndCons ms).2) ∧
      (kv.2.score < 5 →
          metricLine "Poor" kv.1 kv.2 ∈ (generateProsAndCons ms).2) :=
  ⟨generateProsAndCons_length ms, fun kv h => generateProsAndCons_mem ms kv h⟩

/-- C5 (witness): the band classification at a concrete score map with one
entry in every band. -/
theorem generateProsAndCons_bands_witness :
    ((generateProsAndCons
          [("time_complexity", ⟨9, "fast"⟩), ("readability", ⟨7, "clear"⟩),
           ("consistency", ⟨5, "uneven"⟩), ("code_documentation", ⟨2, "sparse"⟩)]).1.length +
        (generateProsAndCons
          [("time_complexity", ⟨9, "fast"⟩), ("readability", ⟨7, "clear"⟩),
           ("consistency", ⟨5, "uneven"⟩), ("code_documentation", ⟨2, "sparse"⟩)]).2.length
        = ([("time_complexity", (⟨9, "fast"⟩ : MetricScore)),
            ("readability", ⟨7, "clear"⟩), ("consistency", ⟨5, "uneven"⟩),
            ("code_documentation", ⟨2, "sparse"⟩)] : List (String × MetricScore)).length) ∧
    ∀ kv ∈ ([("time_complexity", (⟨9, "fast"⟩ : MetricScore)),
             ("readability", ⟨7, "clear"⟩), ("consistency", ⟨5, "uneven"⟩),
             ("code_documentation", ⟨2, "sparse"⟩)] : List (String × MetricScore)),
      ((8 : ℚ) ≤ kv.2.score →
          metricLine "Excellent" kv.1 kv.2 ∈
            (generateProsAndCons
              [("time_complexity", ⟨9, "fast"⟩), ("readability", ⟨7, "clear"⟩),
               ("consistency", ⟨5, "uneven"⟩), ("code_documentation", ⟨2, "sparse"⟩)]).1) ∧
      ((6.5 : ℚ) ≤ kv.2.score → kv.2.score < 8 →
          metricLine "Good" kv.1 kv.2 ∈
            (generateProsAndCons
              [("time_complexity", ⟨9, "fast"⟩), ("readability", ⟨7, "clear"⟩),
               ("consistency", ⟨5, "uneven"⟩), ("code_documentation", ⟨2, "sparse"⟩)]).1) ∧
      ((5 : ℚ) ≤ kv.2.score → kv.2.score < 6.5 →
          metricLine "Moderate" kv.1 kv.2 ∈
            (generateProsAndCons
              [("time_complexity", ⟨9, "fast"⟩), ("readability", ⟨7, "clear"⟩),
               ("consistency", ⟨5, "uneven"⟩), ("code_documentation", ⟨2, "sparse"⟩)]).2) ∧
      (kv.2.score < 5 →
          metricLine "Poor" kv.1 kv.2 ∈
            (generateProsAndCons
              [("time_complexity", ⟨9, "fast"⟩), ("readability", ⟨7, "clear"⟩),
               ("consistency", ⟨5, "uneven"⟩), ("code_documentation", ⟨2, "sparse"⟩)]).2) :=
  generateProsAndCons_bands
    [("time_complexity", ⟨9, "fast"⟩), ("readability", ⟨7, "clear"⟩),
     ("consistency", ⟨5, "uneven"⟩), ("code_documentation", ⟨2, "sparse"⟩)]

/-! ## Claim theorems: `handleStreamEvent` -/

theorem handleStreamEvent_code_chunk_fold (now : Nat) (m : String) :
    ∀ (chunks : List String) (st : ResultsState) (r : ModelResult),
      st.results m = some r →
      ((chunks.foldl (fun acc s => handleStreamEvent now (.code_chunk m s) acc)
          st).results m)
        = some { r with code := chunks.foldl (fun c s => c ++ s) r.code } := by
  intro chunks
  induction chunks with
  | nil => intro st r h; exact h
  | cons c cs ih =>
    intro st r h
    exact ih _ { r with code := r.code ++ c } (by simp [handleStreamEvent, h])

/-- A concrete results-page state used by the witnesses: one pending entry
for `gemini-2.5-pro`, nothing else. -/
def sampleResult : ModelResult :=
  { model := "gemini-2.5-pro", status := .pending, code := "" }

/-- See `sampleResult`. -/
def sampleState : ResultsState :=
  { results := fun m => if m = "gemini-2.5-pro" then some sampleResult else none }

/-- C6: a `code_chunk` event for a model `m` with an entry appends the chunk
to `m`'s accumulated code, leaves every other model's entry unchanged, and
folding a sequence of chunks over an entry with empty code yields exactly
their concatenation in sequence order. -/
theorem handleStreamEvent_code_chunk (now : Nat) (st : ResultsState) (m : String)
    (r : ModelResult) (h : st.results m = some r) :
    (∀ s, (handleStreamEvent now (.code_chunk m s) st).results m
        = some { r with code := r.code ++ s } ∧
      ∀ m', m' ≠ m →
        (handleStreamEvent now (.code_chunk m s) st).results m' = st.results m') ∧
    (r.code = "" →
      ∀ chunks : List String,
        ((chunks.foldl (fun acc s => handleStreamEvent now (.code_chunk m s) acc)
            st).results m)
          = some { r with code := String.join chunks }) := by
  constructor
  · intro s
    constructor
    · simp [handleStreamEvent, h]
    · intro m' hne
      simp [handleStreamEvent, h, hne]
  · intro hc chunks
    rw [handleStreamEvent_code_chunk_fold now m chunks st r h, hc]
    rfl

/-- C6 (witness): chunk accumulation at a concrete state. -/
theorem handleStreamEvent_code_chunk_witness :
    (sampleState.results "gemini-2.5-pro" = some sampleResult) ∧
    ((∀ s, (handleStreamEvent 0 (.code_chunk "gemini-2.5-pro" s) sampleState).results
            "gemini-2.5-pro"
          = some { sampleResult with code := sampleResult.code ++ s } ∧
        ∀ m', m' ≠ "gemini-2.5-pro" →
          (handleStreamEvent 0 (.code_chunk "gemini-2.5-pro" s) sampleState).results m'
            = sampleState.results m') ∧
      (sampleResult.code = "" →
        ∀ chunks : List String,
          ((chunks.foldl
              (fun acc s => handleStreamEvent 0 (.code_chunk "gemini-2.5-pro" s) acc)
              sampleState).results "gemini-2.5-pro")
            = some { sampleResult with code := String.join chunks })) :=
  ⟨rfl, handleStreamEvent_code_chunk 0 sampleState "gemini-2.5-pro" sampleResult rfl⟩

/-- C7: a `generation_complete` event for a model with an entry records the
elapsed time, sets the status to `complete` on success and `error` on
failure, and leaves the accumulated code unchanged. -/
theorem handleStreamEvent_generation_complete (now : Nat) (st : ResultsState)
    (m : String) (r : ModelResult) (h : st.results m = some r) (b : Bool) (t : ℚ) :
    ∃ r', (handleStreamEvent now (.generation_complete m b t) st).results m = some r' ∧
      r'.executionTime = some t ∧
      (b = true → r'.status = .complete) ∧
      (b = false → r'.status = .error) ∧
      r'.code = r.code := by
  refine ⟨{ r with status := if b then .complete else .error, executionTime := some t, error := if b then none else some "Generation failed" }, ?_, rfl, ?_, ?_, rfl⟩
  · simp [handleStreamEvent, h]
  · intro hb; subst hb; rfl
  · intro hb; subst hb; rfl

/-- C7 (witness): `generation_complete` at a concrete state. -/
theorem handleStreamEvent_generation_complete_witness :
    (sampleState.results "gemini-2.5-pro" = some sampleResult) ∧
    ∃ r', (handleStreamEvent 0 (.generation_complete "gemini-2.5-pro" false 1200)
            sampleState).results "gemini-2.5-pro" = some r' ∧
      r'.executionTime = some 1200 ∧
      (false = true → r'.status = .complete) ∧
      (false = false → r'.status = .error) ∧
      r'.code = sampleResult.code :=
  ⟨rfl, handleStreamEvent_generation_complete 0 sampleState "gemini-2.5-pro"
    sampleResult rfl false 1200⟩

/-- C8: an `error` event with a model identifier that has an entry sets only
that model's status and error, appends one model-tagged warning, and leaves
other entries and the batch-level error unchanged; an `error` event without
a model identifier sets the batch-level error and leaves every entry
unchanged. -/
theorem handleStreamEvent_error_event (now : Nat) (st : ResultsState) :
    (∀ m r msg, st.results m = some r →
      (handleStreamEvent now (.error msg (some m)) st).results m
          = some { r with status := .error, error := some msg } ∧
      (∀ m', m' ≠ m →
        (handleStreamEvent now (.error msg (some m)) st).results m'
          = st.results m') ∧
      (handleStreamEvent now (.error msg (some m)) st).error = st.error ∧
      (handleStreamEvent now (.error msg (some m)) st).warnings
        = st.warnings ++
          [{ id := "error-" ++ m ++ "-" ++ toString now, type := "model", message := msg, model := some m }]) ∧
    (∀ msg, (handleStreamEvent now (.error msg none) st).error = some msg ∧
      (handleStreamEvent now (.error msg none) st).results = st.results) := by
  constructor
  · intro m r msg h
    refine ⟨?_, ?_, ?_, ?_⟩
    · simp [handleStreamEvent, h]
    · intro m' hne
      simp [handleStreamEvent, h, hne]
    · simp [handleStreamEvent, h]
    · simp [handleStreamEvent, h]
  · intro msg
    exact ⟨rfl, rfl⟩

/-- C8 (witness): both halves of the `error`-event behavior at a concrete
state. -/
theorem handleStreamEvent_error_event_witness :
    (∀ m r msg, sampleState.results m = some r →
      (handleStreamEvent 7 (.error msg (some m)) sampleState).results m
          = some { r with status := .error, error := some msg } ∧
      (∀ m', m' ≠ m →
        (handleStreamEvent 7 (.error msg (some m)) sampleState).results m'
          = sampleState.results m') ∧
      (handleStreamEvent 7 (.error msg (some m)) sampleState).error
        = sampleState.error ∧
      (handleStreamEvent 7 (.error msg (some m)) sampleState).warnings
        = sampleState.warnings ++
          [{ id := "error-" ++ m ++ "-" ++ toString 7, type := "model", message := msg, model := some m }]) ∧
    (∀ msg, (handleStreamEvent 7 (.error msg none) sampleState).error = some msg ∧
      (handleStreamEvent 7 (.error msg none) sampleState).results
        = sampleState.results) :=
  handleStreamEvent_error_event 7 sampleState

/-- C9 (implicit): every per-model stream event whose model has no entry in
the results map leaves the results map unchanged — no entry is created. -/
theorem handleStreamEvent_unknown_model (now : Nat) (st : ResultsState)
    (m : String) (h : st.results m = none) :
    (handleStreamEvent now (.generation_start m) st).results = st.results ∧
    (∀ s, (handleStreamEvent now (.code_chunk m s) st).results = st.results) ∧
    (∀ b t, (handleStreamEvent now (.generation_complete m b t) st).results
      = st.results) ∧
    (∀ sc ms, (handleStreamEvent now (.evaluation_result m sc ms) st).results
      = st.results) ∧
    (∀ msg, (handleStreamEvent now (.error msg (some m)) st).results
      = st.results) := by
  refine ⟨?_, fun s => ?_, fun b t => ?_, fun sc ms => ?_, fun msg => ?_⟩ <;>
    simp [handleStreamEvent, h]

/-- C9 (witness): dropped events for a model absent from a concrete state. -/
theorem handleStreamEvent_unknown_model_witness :
    (sampleState.results "unknown-model" = none) ∧
    ((handleStreamEvent 0 (.generation_start "unknown-model") sampleState).results
        = sampleState.results ∧
      (∀ s, (handleStreamEvent 0 (.code_chunk "unknown-model" s)
          sampleState).results = sampleState.results) ∧
      (∀ b t, (handleStreamEvent 0 (.generation_complete "unknown-model" b t)
          sampleState).results = sampleState.results) ∧
      (∀ sc ms, (handleStreamEvent 0 (.evaluation_result "unknown-model" sc ms)
          sampleState).results = sampleState.results) ∧
      (∀ msg, (handleStreamEvent 0 (.error msg (some "unknown-model"))
          sampleState).results = sampleState.results)) :=
  ⟨rfl, handleStreamEvent_unknown_model 0 sampleState "unknown-model" rfl⟩

/-! ## Claim theorems: `handleToggle` -/

/-- C10 (implicit): over duplicate-free selections, `handleToggle` keeps
ordered-set semantics — toggling an unselected value appends it at the end,
toggling a selected value removes exactly it preserving the order of the
rest, the result is again duplicate-free, and toggling an unselected value
twice restores the original list. -/
theorem handleToggle_ordered_set_semantics (l : List String) (v : String)
    (h : l.Nodup) :
    (v ∉ l → handleToggle l v = l ++ [v]) ∧
    (v ∈ l → handleToggle l v = l.erase v) ∧
    (handleToggle l v).Nodup ∧
    (v ∉ l → handleToggle (handleToggle l v) v = l) := by
  refine ⟨fun hv => ?_, fun hv => ?_, ?_, fun hv => ?_⟩
  · simp [handleToggle, hv]
  · simp only [handleToggle, if_pos hv]
    exact (h.erase_eq_filter v).symm
  · by_cases hv : v ∈ l
    · simp only [handleToggle, if_pos hv]
      exact h.filter _
    · simp only [handleToggle, if_neg hv]
      simp [List.nodup_append, h, hv]
  · have h1 : handleToggle l v = l ++ [v] := by simp [handleToggle, hv]
    rw [h1]
    have hv' : v ∈ l ++ [v] := by simp
    simp only [handleToggle, if_pos hv']
    rw [List.filter_append]
    have h2 : l.filter (fun x => x != v) = l := by
      rw [List.filter_eq_self]
      intro a ha
      simp only [bne_iff_ne, ne_eq]
      intro hav
      exact hv (hav ▸ ha)
    simp [h2]

/-- C10 (witness): the toggle behavior at a concrete duplicate-free
selection. -/
theorem handleToggle_ordered_set_semantics_witness :
    (["readability", "consistency"] : List String).Nodup ∧
    (("time_complexity" ∉ (["readability", "consistency"] : List String)) →
        handleToggle ["readability", "consistency"] "time_complexity"
          = ["readability", "consistency"] ++ ["time_complexity"]) ∧
    (("time_complexity" ∈ (["readability", "consistency"] : List String)) →
        handleToggle ["readability", "consistency"] "time_complexity"
          = (["readability", "consistency"] : List String).erase "time_complexity") ∧
    (handleToggle ["readability", "consistency"] "time_complexity").Nodup ∧
    (("time_complexity" ∉ (["readability", "consistency"] : List String)) →
        handleToggle (handleToggle ["readability", "consistency"] "time_complexity")
            "time_complexity"
          = ["readability", "consistency"]) :=
  ⟨by decide,
    handleToggle_ordered_set_semantics ["readability", "consistency"]
      "time_complexity" (by decide)⟩

/-! ## Claim theorems: the Weight Calculator -/

theorem list_sum_map_div (l : List ℚ) (c : ℚ) :
    (l.map fun x => x / c).sum = l.sum / c := by
  induction l with
  | nil => simp
  | cons a tl ih => simp [ih, add_div]

/-- C1: for a non-empty priority list and decay rate in (0,1), the computed
weights keep the priority order of the metrics, are strictly decreasing in
that order, and sum to exactly 1 (hence to 1.0 within 1e-6). -/
theorem computeWeights_strictAnti_sum_one (priority : List String) (r : ℚ)
    (hne : priority ≠ []) (h0 : 0 < r) (h1 : r < 1) :
    ((computeWeights priority r).map Prod.fst = priority) ∧
    ((computeWeights priority r).map Prod.snd).Pairwise (· > ·) ∧
    ((computeWeights priority r).map Prod.snd).sum = 1 ∧
    |((computeWeights priority r).map Prod.snd).sum - 1| ≤ 1 / 1000000 := by
  set n := priority.length with hn
  have hnpos : 0 < n := List.length_pos.mpr hne
  set raw : List ℚ := (List.range n).map fun i => r ^ i with hraw
  have htotal : 0 < raw.sum := by
    apply List.sum_pos
    · intro x hx
      obtain ⟨i, _, rfl⟩ := List.mem_map.mp hx
      exact pow_pos h0 i
    · simp [hraw, List.range_eq_nil]
      omega
  have hws : (computeWeights priority r).map Prod.snd
      = raw.map fun w => w / raw.sum := by
    apply List.map_snd_zip
    simp [hraw]
  have hfst : (computeWeights priority r).map Prod.fst = priority := by
    apply List.map_fst_zip
    simp [hraw]
  refine ⟨hfst, ?_, ?_, ?_⟩
  · rw [hws, hraw, List.map_map]
    apply List.Pairwise.map _ _ (List.pairwise_lt_range n)
    intro i j hij
    show r ^ j / raw.sum < r ^ i / raw.sum
    exact (div_lt_div_iff_of_pos_right htotal).mpr
      (pow_lt_pow_right_of_lt_one₀ h0 h1 hij)
  · rw [hws, list_sum_map_div, div_self (ne_of_gt htotal)]
  · rw [hws, list_sum_map_div, div_self (ne_of_gt htotal)]
    simp

/-- C1 (witness): the weights for the full metric priority list at decay
rate 0.7. -/
theorem computeWeights_strictAnti_sum_one_witness :
    (metricValues ≠ []) ∧ (0 < (7/10 : ℚ)) ∧ ((7/10 : ℚ) < 1) ∧
    (((computeWeights metricValues (7/10)).map Prod.fst = metricValues) ∧
      ((computeWeights metricValues (7/10)).map Prod.snd).Pairwise (· > ·) ∧
      ((computeWeights metricValues (7/10)).map Prod.snd).sum = 1 ∧
      |((computeWeights metricValues (7/10)).map Prod.snd).sum - 1| ≤ 1 / 1000000) :=
  ⟨by decide, by norm_num, by norm_num,
    computeWeights_strictAnti_sum_one metricValues (7/10) (by decide)
      (by norm_num) (by norm_num)⟩

end Anubis
